import Mathlib

/-!
Verification development for the slack-mcp-server repository.

The Go sources under `pkg/handler` (lists and canvases tool handlers),
`pkg/provider/lists` (Lists API types and client) and `pkg/server` are
embedded shallowly below.  JSON documents (`json.RawMessage` values) are
modelled as trees of type `Jval`; Go maps and the directory caches are
modelled as association lists; fallible Go calls are modelled with
`Except`/`Option`.  The directory-cache core (`ApiProvider`: snapshot
store, refresh coordinator, paged fetcher, rate limiter) is not part of
the provided sources — only its callers and its test constructor are —
so that core is modelled from the specification, with each such
definition marked `Modelled from the spec:`.
-/

namespace SlackMCP

/-! ### JSON value model

`Jval` stands for a parsed JSON document.  Go's `json.RawMessage` holds raw
bytes; at this level of modelling we identify a raw message with the JSON
tree it parses to (absent raw messages are `Option Jval` set to `none`). -/

inductive Jval where
  | null
  | bool (b : Bool)
  | num (q : ℚ)
  | str (s : String)
  | arr (elems : List Jval)
  | obj (fields : List (String × Jval))

/-- Last-occurrence field lookup in a JSON object, matching the
last-key-wins behaviour of Go's `encoding/json` for duplicate keys. -/
def getField (k : String) : List (String × Jval) → Option Jval
  | [] => none
  | (k', v) :: rest =>
    match getField k rest with
    | some v' => some v'
    | none => if k' = k then some v else none

/-- Element-wise decoding of a JSON array, failing if any element fails,
as Go's `json.Unmarshal` does for slice targets. -/
def mapMO (f : α → Option β) : List α → Option (List β)
  | [] => some []
  | a :: as =>
    match f a with
    | none => none
    | some b =>
      match mapMO f as with
      | none => none
      | some bs => some (b :: bs)

/-- Escape a string for JSON rendering (quote and backslash only; enough
for the structural fallback rendering below). -/
def escapeJsonString (s : String) : String :=
  s.foldl (fun acc c =>
    if c = '"' then acc ++ "\\\""
    else if c = '\\' then acc ++ "\\\\"
    else acc.push c) ""

mutual

/-- Render a `Jval` back to JSON text.  This models the `string(raw)`
fallbacks in the handlers; byte-exact agreement with the original raw
message is beyond the tree-level model and no theorem depends on it. -/
def renderJval : Jval → String
  | Jval.null => "null"
  | Jval.bool b => if b then "true" else "false"
  | Jval.num q => toString q
  | Jval.str s => "\"" ++ escapeJsonString s ++ "\""
  | Jval.arr l => "[" ++ renderJvalList l ++ "]"
  | Jval.obj fs => "\x7b" ++ renderJvalFields fs ++ "\x7d"

def renderJvalList : List Jval → String
  | [] => ""
  | [j] => renderJval j
  | j :: rest => renderJval j ++ "," ++ renderJvalList rest

def renderJvalFields : List (String × Jval) → String
  | [] => ""
  | [(k, v)] => "\"" ++ escapeJsonString k ++ "\":" ++ renderJval v
  | (k, v) :: rest =>
      "\"" ++ escapeJsonString k ++ "\":" ++ renderJval v ++ "," ++ renderJvalFields rest

end

/-! ### pkg/provider/lists/types.go -/

/-- `RichTextRun` from types.go: a text run within a rich_text element. -/
structure RichTextRun where
  type : String
  text : String
deriving DecidableEq

/-- `RichTextElement` from types.go. -/
structure RichTextElement where
  type : String
  elements : List RichTextRun
deriving DecidableEq

/-- `RichTextBlock` from types.go. -/
structure RichTextBlock where
  type : String
  elements : List RichTextElement
deriving DecidableEq

/-- JSON marshalling of `RichTextRun` with the struct tags
`json:"type"` and `json:"text,omitempty"`. -/
def RichTextRun.toJson (r : RichTextRun) : Jval :=
  Jval.obj (("type", Jval.str r.type) ::
    (if r.text = "" then [] else [("text", Jval.str r.text)]))

/-- JSON marshalling of `RichTextElement` with tags
`json:"type"` and `json:"elements,omitempty"`. -/
def RichTextElement.toJson (e : RichTextElement) : Jval :=
  Jval.obj (("type", Jval.str e.type) ::
    (if e.elements.isEmpty then []
     else [("elements", Jval.arr (e.elements.map RichTextRun.toJson))]))

/-- JSON marshalling of `RichTextBlock` with tags
`json:"type"` and `json:"elements"`. -/
def RichTextBlock.toJson (b : RichTextBlock) : Jval :=
  Jval.obj [("type", Jval.str b.type),
    ("elements", Jval.arr (b.elements.map RichTextElement.toJson))]

/-- `WrapTextAsRichText` from types.go: wraps a plain string into the
Block Kit rich_text JSON the Slack Lists API requires, one
`rich_text` block holding one `rich_text_section` with one text run. -/
def WrapTextAsRichText (text : String) : Jval :=
  Jval.arr [RichTextBlock.toJson
    { type := "rich_text"
      elements := [{ type := "rich_text_section"
                     elements := [{ type := "text", text := text }] }] }]

/-! ### JSON decoding into the rich-text structures

These mirror what Go's `json.Unmarshal` does when decoding into
`[]RichTextBlock`: unknown object fields are ignored, missing fields keep
their zero value, `null` decodes to the zero value, and a type mismatch
is an error (`none`). -/

/-- Decode a JSON value into a Go `string` target: a JSON string decodes
to itself, `null` keeps the zero value `""`, anything else errors. -/
def decodeString : Jval → Option String
  | Jval.str s => some s
  | Jval.null => some ""
  | _ => none

/-- Decode a named `string` field of an object; a missing field keeps the
zero value `""`. -/
def decodeStrField (fs : List (String × Jval)) (k : String) : Option String :=
  match getField k fs with
  | none => some ""
  | some j => decodeString j

/-- Decode a named slice-valued field of an object; missing or `null`
decodes to the empty (nil) slice. -/
def decodeArrField (fs : List (String × Jval)) (k : String)
    (dec : Jval → Option α) : Option (List α) :=
  match getField k fs with
  | none => some []
  | some Jval.null => some []
  | some (Jval.arr l) => mapMO dec l
  | some _ => none

/-- Decode one `RichTextRun`. -/
def decodeRun : Jval → Option RichTextRun
  | Jval.obj fs =>
    match decodeStrField fs "type" with
    | none => none
    | some ty =>
      match decodeStrField fs "text" with
      | none => none
      | some tx => some { type := ty, text := tx }
  | Jval.null => some { type := "", text := "" }
  | _ => none

/-- Decode one `RichTextElement`. -/
def decodeElement : Jval → Option RichTextElement
  | Jval.obj fs =>
    match decodeStrField fs "type" with
    | none => none
    | some ty =>
      match decodeArrField fs "elements" decodeRun with
      | none => none
      | some els => some { type := ty, elements := els }
  | Jval.null => some { type := "", elements := [] }
  | _ => none

/-- Decode one `RichTextBlock`. -/
def decodeBlock : Jval → Option RichTextBlock
  | Jval.obj fs =>
    match decodeStrField fs "type" with
    | none => none
    | some ty =>
      match decodeArrField fs "elements" decodeElement with
      | none => none
      | some els => some { type := ty, elements := els }
  | Jval.null => some { type := "", elements := [] }
  | _ => none

/-- Decode a `[]RichTextBlock` target, as `json.Unmarshal(raw, &blocks)`
does in `extractTextFromRichText`. -/
def decodeBlocks : Jval → Option (List RichTextBlock)
  | Jval.null => some []
  | Jval.arr l => mapMO decodeBlock l
  | _ => none

/-- The run-text collection loop of `extractTextFromRichText`: for every
block, element and run, collect `run.Text` when it is non-empty, then
join with the empty separator. -/
def joinRunTexts (blocks : List RichTextBlock) : String :=
  String.join ((blocks.map (fun b =>
    (b.elements.map (fun el =>
      el.elements.filterMap (fun r =>
        if r.text = "" then none else some r.text))).flatten)).flatten)

/-- The fallback tail of `extractTextFromRichText`: try to unmarshal the
raw message as a plain JSON string, else return the raw bytes. -/
def extractFallback (raw : Jval) : String :=
  match decodeString raw with
  | some s => s
  | none => renderJval raw

/-- `extractTextFromRichText` from pkg/handler (lists handler file):
pulls plain text out of a rich_text field.  First tries to decode the
raw message as `[]RichTextBlock` and, when that yields a non-empty
slice, joins the non-empty run texts; otherwise falls back to a plain
string or the raw bytes. -/
def extractTextFromRichText (raw : Jval) : String :=
  match decodeBlocks raw with
  | some blocks => if blocks.isEmpty then extractFallback raw else joinRunTexts blocks
  | none => extractFallback raw

/-- `csvEscape` from the lists handler: wrap a value in quotes if it
contains commas, quotes, newlines or carriage returns. -/
def csvEscape (s : String) : String :=
  if s.any (fun c => c = ',' ∨ c = '"' ∨ c = '\n' ∨ c = '\r') then
    "\"" ++ (s.foldl (fun acc c =>
      if c = '"' then acc ++ "\"\"" else acc.push c) "") ++ "\""
  else s

/-! ### Remaining types from pkg/provider/lists/types.go -/

/-- `Column` from types.go: a list column definition from the schema. -/
structure Column where
  id : String
  name : String
  key : String
  type : String
  options : Option Jval

/-- `ItemField` from types.go: a single field value in a list item.
`json.RawMessage` sub-fields that may be absent are `Option Jval`. -/
structure ItemField where
  key : String
  columnID : String
  value : Jval
  text : String
  richText : Option Jval
  checkbox : Option Bool
  user : Option Jval
  date : Option Jval
  select : Option Jval

/-- `Item` from types.go: a list item (record), with fields keyed by
column ID (an association list standing for the Go map). -/
structure Item where
  id : String
  fields : List (String × ItemField)

/-- `GetItemsResponse` from types.go, reduced to the fields the handlers
consume: the items and the pagination cursor. -/
structure GetItemsResp where
  items : List Item
  nextCursor : String

/-- `GetItemResponse` from types.go, reduced to the fields the handlers
consume: the record and the list schema. -/
structure GetItemResp where
  record : Item
  schema : List Column

/-- `AddItemResponse` from types.go, reduced to the created item. -/
structure AddItemResp where
  item : Item

/-! ### Handler-layer model

The handlers in pkg/handler consume the `ApiProvider` through
`IsReady()`, `ProvideUsersMap().Users`, `Lists()` and `Slack()`.  Those
collaborators are modelled as data: `Provider` carries the readiness
answer and the users map, and the upstream clients are records of
response functions.  Each embedded handler returns the Go
`(*mcp.CallToolResult, error)` pair as `Option String × Option String`
(success text, error message) together with the list of upstream calls
it issued, so that theorems can speak about which upstream operations a
request performed. -/

/-- The Go `(*mcp.CallToolResult, error)` return pair: optional result
text and optional error message. -/
abbrev HandlerReturn := Option String × Option String

/-- One upstream API call issued by a handler, with the identifying
arguments. -/
inductive UpstreamCall where
  | listsGetItems (listID cursor : String) (limit : Int)
  | listsGetItem (listID recordID : String)
  | listsAddItem (listID : String)
  | listsUpdateItem (listID recordID : String)
  | listsDeleteItem (listID recordID : String)
  | getFiles (types channel : String) (count : Int)
  | getFileInfo (fileID : String)
  | getFile (url : String)
  | lookupSections (canvasID : String)
  | createCanvas (title : String)
  | editCanvas (canvasID : String)
deriving DecidableEq

/-- The provider surface the handlers consult before any upstream work:
the boolean and error returned by `IsReady()` and the
`ProvideUsersMap().Users` map (user ID to real name, reduced to what
the handlers read from it). -/
structure Provider where
  ready : Bool
  readyErr : Option String
  usersMap : List (String × String)

/-- Association-list lookup, standing for a Go map read. -/
def lookupA (k : String) : List (String × α) → Option α
  | [] => none
  | (k', v) :: rest => if k' = k then some v else lookupA k rest

/-- The Lists API client (`pkg/provider/lists.Client`) as a record of
response functions: each field gives the upstream's answer to one call. -/
structure ListsClientM where
  getItems : String → String → Int → Except String GetItemsResp
  getItem : String → String → Except String GetItemResp
  addItem : String → List (String × Jval) → Except String AddItemResp
  updateItem : String → String → List (String × Jval) → Option String
  deleteItem : String → String → Option String

/-- A Slack file as consumed by the canvases handlers (`slack.File`
reduced to the fields read by the handlers). -/
structure SlackFile where
  id : String
  title : String
  user : String
  urlPrivate : String
  preview : String
  timestamp : Int

/-- `slack.GetFilesParameters` reduced to the fields the handler sets. -/
structure GetFilesParams where
  types : String
  channel : String
  count : Int

/-- `slack.CanvasSection` reduced to the field the handler reads. -/
structure CanvasSection where
  id : String

/-- `slack.DocumentContent`. -/
structure DocumentContent where
  type : String
  markdown : String

/-- `slack.CanvasChange`. -/
structure CanvasChange where
  operation : String
  sectionID : String
  documentContent : DocumentContent

/-- `slack.EditCanvasParams`. -/
structure EditCanvasParams where
  canvasID : String
  changes : List CanvasChange

/-- `slack.LookupCanvasSectionsParams`. -/
structure LookupCanvasSectionsParams where
  canvasID : String
  containsText : String
  sectionTypes : List String

/-- The Slack API client (`provider.SlackAPI`) as a record of response
functions for the calls the canvases handlers issue. -/
structure SlackAPIM where
  getFilesContext : GetFilesParams → Except String (List SlackFile)
  getFileInfoContext : String → Except String SlackFile
  getFileContext : String → Except String String
  lookupCanvasSectionsContext : LookupCanvasSectionsParams → Except String (List CanvasSection)
  createCanvasContext : String → DocumentContent → Except String String
  editCanvasContext : EditCanvasParams → Option String

/-- `CanvasItem` from the canvases handler: one CSV row. -/
structure CanvasItem where
  id : String
  title : String
  createdBy : String
  updated : String

/-! ### Environment gating (lists handler / canvases handler) -/

/-- `strings.ToLower` as used by the write-enablement checks: lower-case
every character (character-wise, which agrees with Go on the ASCII
values these checks compare against). -/
def toLowerStr (s : String) : String :=
  ⟨s.data.map Char.toLower⟩

/-- `isListWriteEnabled` from the lists handler: list write tools are
enabled iff `SLACK_MCP_LIST_WRITE_TOOL` lower-cases to `true`, `1` or
`yes`.  The environment variable's value (empty when unset) is passed
in explicitly. -/
def isListWriteEnabled (env : String) : Bool :=
  let v := toLowerStr env
  v = "true" || v = "1" || v = "yes"

/-- `isCanvasWriteEnabled` from the canvases handler: same rule for
`SLACK_MCP_CANVAS_WRITE_TOOL`. -/
def isCanvasWriteEnabled (env : String) : Bool :=
  let v := toLowerStr env
  v = "true" || v = "1" || v = "yes"

/-- The disabled-tools error message of the three list write handlers. -/
def listWriteDisabledMsg : String :=
  "list write tools are disabled by default. To enable them, set the SLACK_MCP_LIST_WRITE_TOOL environment variable to 'true'"

/-- The disabled-tools error message of the two canvas write handlers. -/
def canvasWriteDisabledMsg : String :=
  "canvas write tools are disabled by default. To enable them, set the SLACK_MCP_CANVAS_WRITE_TOOL environment variable to 'true'"

/-! ### Lists handlers (pkg/handler, lists file)

The CSV/text rendering of successful responses (`formatItemsCSV`,
`formatSingleItem`) is pure output formatting with no control-flow or
upstream effect; the handlers take those formatters as function
arguments so every theorem below holds for the real formatters. -/

/-- `ListsGetItemsHandler`: readiness gate, `list_id` required, lists
client required, one `GetItems` call, CSV output with optional cursor
footer. -/
def ListsGetItemsHandler (p : Provider) (client : Option ListsClientM)
    (formatItemsCSV : List Item → String)
    (listID cursor : String) (limit : Int) : HandlerReturn × List UpstreamCall :=
  if ¬ p.ready then ((none, p.readyErr), [])
  else if listID = "" then ((none, some "list_id is required"), [])
  else
    match client with
    | none => ((none, some "lists client is not available"), [])
    | some c =>
      match c.getItems listID cursor limit with
      | Except.error e =>
          ((none, some ("failed to get items from list " ++ listID ++ ": " ++ e)),
           [UpstreamCall.listsGetItems listID cursor limit])
      | Except.ok resp =>
          if resp.items.isEmpty then
            ((some "No items found.", none), [UpstreamCall.listsGetItems listID cursor limit])
          else
            let csv := formatItemsCSV resp.items
            let csv := if resp.nextCursor ≠ "" then
                csv ++ "\n# Next cursor: " ++ resp.nextCursor
              else csv
            ((some csv, none), [UpstreamCall.listsGetItems listID cursor limit])

/-- `ListsGetItemHandler`: readiness gate, `list_id` and `record_id`
required, lists client required, one `GetItem` call. -/
def ListsGetItemHandler (p : Provider) (client : Option ListsClientM)
    (formatSingleItem : Item → List Column → String)
    (listID recordID : String) : HandlerReturn × List UpstreamCall :=
  if ¬ p.ready then ((none, p.readyErr), [])
  else if listID = "" then ((none, some "list_id is required"), [])
  else if recordID = "" then ((none, some "record_id is required"), [])
  else
    match client with
    | none => ((none, some "lists client is not available"), [])
    | some c =>
      match c.getItem listID recordID with
      | Except.error e =>
          ((none, some ("failed to get item " ++ recordID ++ " from list " ++ listID ++ ": " ++ e)),
           [UpstreamCall.listsGetItem listID recordID])
      | Except.ok resp =>
          ((some (formatSingleItem resp.record resp.schema), none),
           [UpstreamCall.listsGetItem listID recordID])

/-- The auto-wrapping loop of `ListsAddItemHandler`: plain JSON strings
become Block Kit rich_text, any other decoded value is re-marshalled
unchanged. -/
def wrapRawField : Jval → Jval
  | Jval.str s => WrapTextAsRichText s
  | v => v

/-- `ListsAddItemHandler`: write gate, readiness gate, `list_id` and
`fields` required, `fields` parsed as a JSON object (the JSON text
parser is passed in as `parseObj`), string values auto-wrapped, one
`AddItem` call.  `parseErr` stands for the `json.Unmarshal` error text
wrapped by the handler. -/
def ListsAddItemHandler (p : Provider) (client : Option ListsClientM)
    (listWriteEnv : String)
    (parseObj : String → Option (List (String × Jval))) (parseErr : String)
    (listID fieldsStr : String) : HandlerReturn × List UpstreamCall :=
  if ¬ isListWriteEnabled listWriteEnv then ((none, some listWriteDisabledMsg), [])
  else if ¬ p.ready then ((none, p.readyErr), [])
  else if listID = "" then ((none, some "list_id is required"), [])
  else if fieldsStr = "" then
    ((none, some "fields is required (JSON object mapping column IDs to values)"), [])
  else
    match parseObj fieldsStr with
    | none => ((none, some ("fields must be valid JSON: " ++ parseErr)), [])
    | some rawFields =>
      let fields := rawFields.map (fun kv => (kv.1, wrapRawField kv.2))
      match client with
      | none => ((none, some "lists client is not available"), [])
      | some c =>
        match c.addItem listID fields with
        | Except.error e =>
            ((none, some ("failed to add item to list " ++ listID ++ ": " ++ e)),
             [UpstreamCall.listsAddItem listID])
        | Except.ok resp =>
            ((some ("Item created successfully. Record ID: " ++ resp.item.id), none),
             [UpstreamCall.listsAddItem listID])

/-- `ListsUpdateItemHandler`: write gate, readiness gate, `list_id`,
`record_id` and `column_id` required, the single value auto-wrapped as
rich_text, one `UpdateItem` call. -/
def ListsUpdateItemHandler (p : Provider) (client : Option ListsClientM)
    (listWriteEnv : String)
    (listID recordID columnID value : String) : HandlerReturn × List UpstreamCall :=
  if ¬ isListWriteEnabled listWriteEnv then ((none, some listWriteDisabledMsg), [])
  else if ¬ p.ready then ((none, p.readyErr), [])
  else if listID = "" then ((none, some "list_id is required"), [])
  else if recordID = "" then ((none, some "record_id is required"), [])
  else if columnID = "" then ((none, some "column_id is required"), [])
  else
    let fields := [(columnID, WrapTextAsRichText value)]
    match client with
    | none => ((none, some "lists client is not available"), [])
    | some c =>
      match c.updateItem listID recordID fields with
      | some e =>
          ((none, some ("failed to update item " ++ recordID ++ " in list " ++ listID ++ ": " ++ e)),
           [UpstreamCall.listsUpdateItem listID recordID])
      | none =>
          ((some ("Item " ++ recordID ++ " updated successfully."), none),
           [UpstreamCall.listsUpdateItem listID recordID])

/-- `ListsDeleteItemHandler`: write gate, readiness gate, `list_id` and
`record_id` required, one `DeleteItem` call. -/
def ListsDeleteItemHandler (p : Provider) (client : Option ListsClientM)
    (listWriteEnv : String)
    (listID recordID : String) : HandlerReturn × List UpstreamCall :=
  if ¬ isListWriteEnabled listWriteEnv then ((none, some listWriteDisabledMsg), [])
  else if ¬ p.ready then ((none, p.readyErr), [])
  else if listID = "" then ((none, some "list_id is required"), [])
  else if recordID = "" then ((none, some "record_id is required"), [])
  else
    match client with
    | none => ((none, some "lists client is not available"), [])
    | some c =>
      match c.deleteItem listID recordID with
      | some e =>
          ((none, some ("failed to delete item " ++ recordID ++ " from list " ++ listID ++ ": " ++ e)),
           [UpstreamCall.listsDeleteItem listID recordID])
      | none =>
          ((some ("Item " ++ recordID ++ " deleted successfully."), none),
           [UpstreamCall.listsDeleteItem listID recordID])

/-! ### Canvases handlers (pkg/handler, canvases file)

`gocsv.MarshalBytes` and the RFC3339 timestamp rendering are passed in
as function arguments (`csvMarshal`, `fmtTime`); they are pure output
formatting. -/

/-- `CanvasesListHandler`: readiness gate, limit clamping, one
`GetFilesContext` call with `types=canvases`, creator names resolved
through the users map, CSV output. -/
def CanvasesListHandler (p : Provider) (api : SlackAPIM)
    (csvMarshal : List CanvasItem → Except String String) (fmtTime : Int → String)
    (channelID : String) (limit0 : Int) : HandlerReturn × List UpstreamCall :=
  if ¬ p.ready then ((none, p.readyErr), [])
  else
    let limit := if limit0 ≤ 0 ∨ limit0 > 1000 then 100 else limit0
    let params : GetFilesParams := { types := "canvases", channel := channelID, count := limit }
    match api.getFilesContext params with
    | Except.error e =>
        ((none, some ("failed to list canvases: " ++ e)),
         [UpstreamCall.getFiles "canvases" channelID limit])
    | Except.ok files =>
        if files.isEmpty then
          ((some "No canvases found.", none), [UpstreamCall.getFiles "canvases" channelID limit])
        else
          let items := files.map (fun f =>
            let createdBy := match lookupA f.user p.usersMap with
              | some n => n
              | none => f.user
            { id := f.id, title := f.title, createdBy := createdBy,
              updated := fmtTime f.timestamp : CanvasItem })
          match csvMarshal items with
          | Except.error e =>
              ((none, some ("failed to format canvases: " ++ e)),
               [UpstreamCall.getFiles "canvases" channelID limit])
          | Except.ok csv =>
              ((some csv, none), [UpstreamCall.getFiles "canvases" channelID limit])

/-- The preview/metadata fallback tail of `CanvasesReadHandler`. -/
def canvasReadFallback (file : SlackFile) (canvasID : String)
    (calls : List UpstreamCall) : HandlerReturn × List UpstreamCall :=
  if file.preview ≠ "" then
    ((some ("# " ++ file.title ++ "\n\n" ++ file.preview), none), calls)
  else
    ((some ("# " ++ file.title ++ "\n\nCanvas content could not be retrieved. Canvas ID: " ++ canvasID), none),
     calls)

/-- `CanvasesReadHandler`: readiness gate, `canvas_id` required, one
`GetFileInfoContext` call, then an attempted download via
`GetFileContext` with a preview/metadata fallback. -/
def CanvasesReadHandler (p : Provider) (api : SlackAPIM)
    (canvasID : String) : HandlerReturn × List UpstreamCall :=
  if ¬ p.ready then ((none, p.readyErr), [])
  else if canvasID = "" then ((none, some "canvas_id is required"), [])
  else
    match api.getFileInfoContext canvasID with
    | Except.error e =>
        ((none, some ("failed to read canvas " ++ canvasID ++ ": " ++ e)),
         [UpstreamCall.getFileInfo canvasID])
    | Except.ok file =>
        if file.urlPrivate ≠ "" then
          match api.getFileContext file.urlPrivate with
          | Except.ok content =>
              if content.length > 0 then
                ((some ("# " ++ file.title ++ "\n\n" ++ content), none),
                 [UpstreamCall.getFileInfo canvasID, UpstreamCall.getFile file.urlPrivate])
              else
                canvasReadFallback file canvasID
                  [UpstreamCall.getFileInfo canvasID, UpstreamCall.getFile file.urlPrivate]
          | Except.error _ =>
              canvasReadFallback file canvasID
                [UpstreamCall.getFileInfo canvasID, UpstreamCall.getFile file.urlPrivate]
        else
          canvasReadFallback file canvasID [UpstreamCall.getFileInfo canvasID]

/-- The section list rendering of `CanvasesSectionsLookupHandler`. -/
def renderSections (sections : List CanvasSection) : String :=
  "Found " ++ toString sections.length ++ " section(s):\n\n" ++
    String.join (sections.map (fun s => "- Section ID: " ++ s.id ++ "\n"))

/-- `CanvasesSectionsLookupHandler`: readiness gate, `canvas_id`
required, criteria built by splitting `section_types` on commas and
trimming, one `LookupCanvasSectionsContext` call. -/
def CanvasesSectionsLookupHandler (p : Provider) (api : SlackAPIM)
    (canvasID containsText sectionTypes : String) : HandlerReturn × List UpstreamCall :=
  if ¬ p.ready then ((none, p.readyErr), [])
  else if canvasID = "" then ((none, some "canvas_id is required"), [])
  else
    let sts := if sectionTypes ≠ "" then (sectionTypes.splitOn ",").map String.trim else []
    let params : LookupCanvasSectionsParams :=
      { canvasID := canvasID, containsText := containsText, sectionTypes := sts }
    match api.lookupCanvasSectionsContext params with
    | Except.error e =>
        ((none, some ("failed to lookup sections in canvas " ++ canvasID ++ ": " ++ e)),
         [UpstreamCall.lookupSections canvasID])
    | Except.ok sections =>
        if sections.isEmpty then
          ((some "No matching sections found.", none), [UpstreamCall.lookupSections canvasID])
        else
          ((some (renderSections sections), none), [UpstreamCall.lookupSections canvasID])

/-- `CanvasesCreateHandler`: write gate, readiness gate, `title`
required, one `CreateCanvasContext` call with markdown content. -/
def CanvasesCreateHandler (p : Provider) (api : SlackAPIM)
    (canvasWriteEnv : String)
    (title content : String) : HandlerReturn × List UpstreamCall :=
  if ¬ isCanvasWriteEnabled canvasWriteEnv then ((none, some canvasWriteDisabledMsg), [])
  else if ¬ p.ready then ((none, p.readyErr), [])
  else if title = "" then ((none, some "title is required"), [])
  else
    let doc : DocumentContent := { type := "markdown", markdown := content }
    match api.createCanvasContext title doc with
    | Except.error e =>
        ((none, some ("failed to create canvas: " ++ e)), [UpstreamCall.createCanvas title])
    | Except.ok canvasID =>
        ((some ("Canvas created successfully. ID: " ++ canvasID), none),
         [UpstreamCall.createCanvas title])

/-- The rename-rejection message of `CanvasesEditHandler`. -/
def renameUnsupportedMsg : String :=
  "rename operation is not directly supported by the Slack Canvas API. Use canvases_create with the desired title and copy content instead"

/-- `CanvasesEditHandler`: write gate, readiness gate, `canvas_id` and
`operation` required, `rename` rejected before any upstream call, one
`EditCanvasContext` call with a single change otherwise. -/
def CanvasesEditHandler (p : Provider) (api : SlackAPIM)
    (canvasWriteEnv : String)
    (canvasID operation sectionID content : String) : HandlerReturn × List UpstreamCall :=
  if ¬ isCanvasWriteEnabled canvasWriteEnv then ((none, some canvasWriteDisabledMsg), [])
  else if ¬ p.ready then ((none, p.readyErr), [])
  else if canvasID = "" then ((none, some "canvas_id is required"), [])
  else if operation = "" then
    ((none, some "operation is required (insert_after, insert_before, insert_at_start, insert_at_end, replace, delete, rename)"), [])
  else if operation = "rename" then
    if content = "" then
      ((none, some "content (new title) is required for rename operation"), [])
    else
      ((none, some renameUnsupportedMsg), [])
  else
    let change : CanvasChange :=
      { operation := operation, sectionID := sectionID,
        documentContent := { type := "markdown", markdown := content } }
    let params : EditCanvasParams := { canvasID := canvasID, changes := [change] }
    match api.editCanvasContext params with
    | some e =>
        ((none, some ("failed to edit canvas " ++ canvasID ++ ": " ++ e)),
         [UpstreamCall.editCanvas canvasID])
    | none =>
        ((some ("Canvas " ++ canvasID ++ " edited successfully (operation: " ++ operation ++ ")."), none),
         [UpstreamCall.editCanvas canvasID])

/-! ### Directory snapshot cache core

The `ApiProvider` cache core (snapshot store, snapshot builder, refresh
coordinator, paged fetcher, rate limiter) is not among the provided
source files — only its callers, its test constructor
(`NewTestProvider`) and the spec describe it — so the definitions in
this section are modelled from the specification (sections 3-5 and 8 of
spec.md). -/

/-- Modelled from the spec: `DirectoryEntry` (§3) — an upstream record
keyed by an opaque ID with a human-facing alias (field `aliasName`
here, since `alias` is a reserved command name in this Lean
environment). -/
structure DirectoryEntry where
  id : String
  aliasName : String
deriving DecidableEq

/-- Modelled from the spec: `Snapshot` (§3) — an immutable pair of
mappings built from one refresh cycle, `byID : ID → DirectoryEntry` and
`byAlias : Alias → ID`, both represented as association lists. -/
structure Snapshot where
  byID : List (String × DirectoryEntry)
  byAlias : List (String × String)
deriving DecidableEq

/-- Association-list insert with replace semantics: writing a key that
is already present overwrites its value in place (last-write-wins, the
behaviour of a Go map store). -/
def insertA (k : String) (v : α) : List (String × α) → List (String × α)
  | [] => [(k, v)]
  | (k', v') :: rest => if k' = k then (k, v) :: rest else (k', v') :: insertA k v rest

/-- Modelled from the spec: one iteration of `SnapshotBuilder.build`
(§4.4) — insert the entry into `byID` keyed by its ID and into
`byAlias` keyed by its normalized alias, last-write-wins on duplicates. -/
def buildStep (norm : String → String) (s : Snapshot) (e : DirectoryEntry) : Snapshot :=
  { byID := insertA e.id e s.byID
    byAlias := insertA (norm e.aliasName) e.id s.byAlias }

/-- Modelled from the spec: `SnapshotBuilder.build` (§4.4) — pure and
deterministic, iterates the fetched entries once from an empty pair of
maps.  `norm` is the dataset's alias normalization (case rules per
§4.4). -/
def build (norm : String → String) (entries : List DirectoryEntry) : Snapshot :=
  entries.foldl (buildStep norm) { byID := [], byAlias := [] }

/-- Modelled from the spec: the operations on a `SnapshotStore` (§4.1) —
an atomic `publish` of a snapshot built from a completed fetch, and a
non-blocking `read`.  A sequence of interleaved operations is a list of
these; the atomic reference swap means any concurrent execution
linearizes to such a sequence. -/
inductive StoreOp where
  | publish (entries : List DirectoryEntry)
  | read

/-- Modelled from the spec: running a sequence of interleaved `publish`
and `read` operations against a `SnapshotStore` (§4.1) whose current
reference starts at `s`.  Returns the final reference and the snapshot
reference observed by each `read`, in order.  `publish` swaps the
single reference to the snapshot fully built from its entries; `read`
returns the current reference without blocking. -/
def runStore (norm : String → String) : List StoreOp → Option Snapshot →
    Option Snapshot × List (Option Snapshot)
  | [], s => (s, [])
  | StoreOp.publish es :: rest, _ => runStore norm rest (some (build norm es))
  | StoreOp.read :: rest, s =>
      ((runStore norm rest s).1, s :: (runStore norm rest s).2)

/-- Modelled from the spec: the per-dataset `RefreshCoordinator` state
(§4.5) — the published snapshot reference, the monotone readiness flag,
the single-flight `Refreshing` marker, a count of fetch attempts ever
started, and the last recorded refresh error. -/
structure CoordState where
  store : Option Snapshot
  ready : Bool
  refreshing : Bool
  attempts : Nat
  lastError : Option String
deriving DecidableEq

/-- Modelled from the spec: the dataset state at process start (§3) —
created empty, not ready, no refresh in flight. -/
def initCoord : CoordState :=
  { store := none, ready := false, refreshing := false, attempts := 0, lastError := none }

/-- Modelled from the spec: completion of one refresh attempt (§4.5).
On success the fully built snapshot is published and the readiness flag
is set true (idempotently); on failure the previous snapshot and the
readiness flag are left untouched and the error is only recorded
(stale-but-available). -/
def applyRefresh (norm : String → String) (st : CoordState)
    (res : Except String (List DirectoryEntry)) : CoordState :=
  match res with
  | Except.error e => { st with lastError := some e, refreshing := false }
  | Except.ok entries =>
      { st with store := some (build norm entries), ready := true,
                lastError := none, refreshing := false }

/-- Modelled from the spec: a sequence of completed refresh attempts
(§4.5), each either a successful fetch of a full entry list or a
failure. -/
def runRefreshes (norm : String → String) (st : CoordState)
    (rs : List (Except String (List DirectoryEntry))) : CoordState :=
  rs.foldl (applyRefresh norm) st

/-- Modelled from the spec: a refresh trigger (§4.5, single-flight) —
only if not already `Refreshing` does a trigger start a new fetch
attempt; a trigger arriving while `Refreshing` is a no-op that
piggybacks on the in-flight attempt. -/
def triggerRefresh (st : CoordState) : CoordState :=
  if st.refreshing then st
  else { st with refreshing := true, attempts := st.attempts + 1 }

/-- Modelled from the spec: `PagedFetcher.fetchAll` (§4.2) — repeatedly
call the upstream listing endpoint, following the continuation cursor
until the upstream signals no more pages (empty cursor), accumulating
entries; on upstream error abort and return the error with the
accumulation discarded.  `up` answers one page request (the
rate-limiter permit acquired before each page can only surface here as
a cancellation error from `up` itself); the `fuel` bound is a model
artifact making the cursor-following loop total. -/
def fetchPages (up : String → Except String (List DirectoryEntry × String)) :
    Nat → String → List DirectoryEntry → Except String (List DirectoryEntry)
  | 0, _, _ => Except.error "pagination limit exceeded"
  | fuel + 1, c, acc =>
    match up c with
    | Except.error e => Except.error e
    | Except.ok (es, c') =>
      if c' = "" then Except.ok (acc ++ es) else fetchPages up fuel c' (acc ++ es)

/-- The upstream errors on some page reached by following the cursor
chain from `c` within the given fuel: either the page at `c` itself
fails, or it succeeds with a non-empty next cursor from which an error
is reached. -/
inductive ReachesError (up : String → Except String (List DirectoryEntry × String)) :
    Nat → String → String → Prop
  | here (fuel : Nat) (c e : String) :
      up c = Except.error e → ReachesError up (fuel + 1) c e
  | step (fuel : Nat) (c : String) (es : List DirectoryEntry) (c' e : String) :
      up c = Except.ok (es, c') → c' ≠ "" → ReachesError up fuel c' e →
      ReachesError up (fuel + 1) c e

/-- Modelled from the spec: one full refresh attempt (§4.5) — fetch all
pages starting from the empty cursor, then hand the outcome to the
coordinator, which publishes only on success. -/
def refreshAttempt (norm : String → String)
    (up : String → Except String (List DirectoryEntry × String))
    (fuel : Nat) (st : CoordState) : CoordState :=
  applyRefresh norm st (fetchPages up fuel "" [])

/-- Modelled from the spec: a caller's context as seen by
`RateLimiter.acquire` (§4.3) — whether it has been canceled, and its
optional deadline (an absolute time). -/
structure Ctx where
  canceled : Bool
  deadline : Option ℚ

/-- Modelled from the spec: the token-bucket state of the shared
`RateLimiter` (§3, §4.3) — refill rate, burst capacity and the current
token count. -/
structure Bucket where
  rate : ℚ
  burst : ℚ
  tokens : ℚ

/-- Modelled from the spec: how long an `acquire` must wait for a token
(§4.3) — zero when a token is available, otherwise the continuous
refill time for the missing fraction. -/
def waitTime (b : Bucket) : ℚ :=
  if 1 ≤ b.tokens then 0 else (1 - b.tokens) / b.rate

/-- Modelled from the spec: `RateLimiter.acquire(ctx)` (§4.3) — blocks
until a token is available; returns an error only when the caller's
context is already canceled or its deadline falls before the moment a
token would become available; otherwise consumes one token (after the
continuous refill earned during the wait). -/
def acquire (ctx : Ctx) (now : ℚ) (b : Bucket) : Except String Bucket :=
  if ctx.canceled then Except.error "context canceled"
  else
    match ctx.deadline with
    | some d =>
      if d < now + waitTime b then Except.error "context deadline exceeded"
      else Except.ok { b with tokens := b.tokens + b.rate * waitTime b - 1 }
    | none => Except.ok { b with tokens := b.tokens + b.rate * waitTime b - 1 }

/-- A concrete Slack API record with every upstream call failing,
used to instantiate witness statements. -/
def trivialSlackAPI : SlackAPIM where
  getFilesContext := fun _ => Except.error "down"
  getFileInfoContext := fun _ => Except.error "down"
  getFileContext := fun _ => Except.error "down"
  lookupCanvasSectionsContext := fun _ => Except.error "down"
  createCanvasContext := fun _ _ => Except.error "down"
  editCanvasContext := fun _ => some "down"

/-! ## Theorems -/

/-- Association-list lookup after a replace-insert: the inserted key
reads back the new value, every other key is unchanged. -/
theorem lookupA_insertA (k q : String) (v : α) (l : List (String × α)) :
    lookupA q (insertA k v l) = if k = q then some v else lookupA q l := by
  induction l with
  | nil => by_cases h : k = q <;> simp [insertA, lookupA, h]
  | cons p rest ih =>
    obtain ⟨k0, v0⟩ := p
    by_cases h0 : k0 = k <;> by_cases hq : k = q <;>
      simp_all [insertA, lookupA]

/-- Every snapshot observed by a `read` in a run started from reference
`s` is either that starting reference or one published during the run. -/
theorem runStore_reads_aux (norm : String → String) :
    ∀ (ops : List StoreOp) (s r : Option Snapshot), r ∈ (runStore norm ops s).2 →
      r = s ∨ ∃ es, StoreOp.publish es ∈ ops ∧ r = some (build norm es) := by
  intro ops
  induction ops with
  | nil => intro s r h; simp [runStore] at h
  | cons op rest ih =>
    intro s r h
    cases op with
    | publish es =>
      simp only [runStore] at h
      rcases ih _ r h with h1 | ⟨es', hmem, he⟩
      · exact Or.inr ⟨es, List.mem_cons_self .., h1⟩
      · exact Or.inr ⟨es', List.mem_cons_of_mem _ hmem, he⟩
    | read =>
      simp only [runStore, List.mem_cons] at h
      rcases h with h1 | h1
      · exact Or.inl h1
      · rcases ih _ r h1 with h2 | ⟨es', hmem, he⟩
        · exact Or.inl h2
        · exact Or.inr ⟨es', List.mem_cons_of_mem _ hmem, he⟩

/-- Claim C1: for every sequence of interleaved publish and read
operations on a dataset's SnapshotStore (starting from the empty store
at process start), every read returns either the absent value or a
Snapshot that was fully constructed by some completed build before it
was published; because each read observes one whole published
`Snapshot` value, its `byID` and `byAlias` always come from the same
build — never a mixture of two snapshots. -/
theorem reads_return_published_snapshots (norm : String → String) (ops : List StoreOp)
    (r : Option Snapshot) (h : r ∈ (runStore norm ops none).2) :
    r = none ∨ ∃ es, StoreOp.publish es ∈ ops ∧ r = some (build norm es) :=
  runStore_reads_aux norm ops none r h

/-- Witness for C1 at a concrete publish-then-read sequence. -/
theorem reads_return_published_snapshots_witness :
    some (build id [⟨"U1", "alice"⟩]) = none ∨
      ∃ es, StoreOp.publish es ∈ [StoreOp.publish [⟨"U1", "alice"⟩], StoreOp.read] ∧
        some (build id [⟨"U1", "alice"⟩]) = some (build id es) :=
  reads_return_published_snapshots id [StoreOp.publish [⟨"U1", "alice"⟩], StoreOp.read]
    (some (build id [⟨"U1", "alice"⟩])) (by decide)

/-- Claim C2: the readiness flag of a dataset starts false and is
monotone — for every sequence of completed refresh attempts, including
failed ones, once the flag is true it stays true (it can only flip
false-to-true, which therefore happens at most once, on the first
successful publish). -/
theorem readiness_monotone :
    initCoord.ready = false ∧
    ∀ (norm : String → String) (st : CoordState)
      (rs : List (Except String (List DirectoryEntry))),
      st.ready = true → (runRefreshes norm st rs).ready = true := by
  refine ⟨rfl, ?_⟩
  intro norm st rs
  induction rs generalizing st with
  | nil => intro h; exact h
  | cons r rest ih =>
    intro h
    have hstep : (applyRefresh norm st r).ready = true := by
      cases r <;> simp [applyRefresh, h]
    exact ih _ hstep

/-- Witness for C2: a ready dataset stays ready across a failed refresh. -/
theorem readiness_monotone_witness :
    (runRefreshes id ⟨none, true, false, 1, none⟩ [Except.error "network down"]).ready = true :=
  readiness_monotone.2 id _ [Except.error "network down"] rfl

/-- A trigger arriving while a refresh is in flight changes nothing. -/
theorem triggerRefresh_fixed {st : CoordState} (h : st.refreshing = true) :
    triggerRefresh st = st := by
  simp [triggerRefresh, h]

/-- Claim C4: while a refresh for a dataset is in flight, any number N
of additional refresh triggers are no-ops that start no new fetch
attempt; and N ≥ 1 triggers issued from idle start exactly one fetch
attempt in total (the first trigger starts it, the rest piggyback). -/
theorem single_flight_triggers (st : CoordState) :
    (st.refreshing = true → ∀ n, triggerRefresh^[n] st = st) ∧
    (st.refreshing = false → ∀ n, 0 < n →
      (triggerRefresh^[n] st).attempts = st.attempts + 1 ∧
      (triggerRefresh^[n] st).refreshing = true) := by
  have fix : ∀ (s : CoordState), s.refreshing = true → ∀ n, triggerRefresh^[n] s = s := by
    intro s hs n
    induction n with
    | zero => rfl
    | succ n ih => rw [Function.iterate_succ_apply, triggerRefresh_fixed hs]; exact ih
  refine ⟨fun h n => fix st h n, ?_⟩
  intro h n hn
  obtain ⟨m, rfl⟩ : ∃ m, n = m + 1 := ⟨n - 1, (Nat.succ_pred_eq_of_pos hn).symm⟩
  rw [Function.iterate_succ_apply]
  have hstep : triggerRefresh st = { st with refreshing := true, attempts := st.attempts + 1 } := by
    simp [triggerRefresh, h]
  rw [hstep, fix _ rfl]
  exact ⟨rfl, rfl⟩

/-- Witness for C4: five triggers during an in-flight refresh change
nothing, and three triggers from the initial idle state start exactly
one attempt. -/
theorem single_flight_triggers_witness :
    triggerRefresh^[5] (⟨none, false, true, 1, none⟩ : CoordState) =
      ⟨none, false, true, 1, none⟩ ∧
    ((triggerRefresh^[3] initCoord).attempts = initCoord.attempts + 1 ∧
      (triggerRefresh^[3] initCoord).refreshing = true) :=
  ⟨(single_flight_triggers _).1 rfl 5, (single_flight_triggers _).2 rfl 3 (by decide)⟩

/-- Claim C6: `RateLimiter.acquire(ctx)` returns an error exactly when
the caller's context is canceled or its deadline falls before the
moment a token becomes available; token exhaustion alone (no
cancellation, no deadline, or a late enough deadline) never produces an
error — it only lengthens the wait `waitTime`. -/
theorem acquire_error_iff (ctx : Ctx) (now : ℚ) (b : Bucket) :
    (∃ e, acquire ctx now b = Except.error e) ↔
      (ctx.canceled = true ∨ ∃ d, ctx.deadline = some d ∧ d < now + waitTime b) := by
  unfold acquire
  cases hc : ctx.canceled with
  | true => simp
  | false =>
    simp only [Bool.false_eq_true, if_false, false_or]
    cases hd : ctx.deadline with
    | none => simp
    | some d =>
      by_cases hlt : d < now + waitTime b
      · simp [hlt]
      · simp [hlt]

/-- Claim C5: when the upstream errors on any page reached while
following the cursor chain, `fetchAll` returns that error with every
previously accumulated entry discarded (the result is the bare error,
whatever the accumulator held), and a refresh attempt whose fetch
failed publishes nothing: the stored snapshot and the readiness flag
are unchanged, so no snapshot built from a failed fetch ever becomes
visible. -/
theorem fetch_error_discards_and_never_publishes
    {up : String → Except String (List DirectoryEntry × String)} {fuel : Nat}
    {c e : String} (h : ReachesError up fuel c e) :
    (∀ acc, fetchPages up fuel c acc = Except.error e) ∧
    (∀ (norm : String → String) (st : CoordState), c = "" →
      (refreshAttempt norm up fuel st).store = st.store ∧
      (refreshAttempt norm up fuel st).ready = st.ready) := by
  have main : ∀ acc, fetchPages up fuel c acc = Except.error e := by
    induction h with
    | here fuel c e hup => intro acc; simp [fetchPages, hup]
    | step fuel c es c' e hup hne _ ih =>
      intro acc
      simp only [fetchPages, hup]
      rw [if_neg hne]
      exact ih _
  refine ⟨main, ?_⟩
  intro norm st hc
  subst hc
  unfold refreshAttempt
  rw [main []]
  exact ⟨rfl, rfl⟩

/-- Witness for C5: an upstream failing on the first page aborts the
fetch even with a non-empty accumulator, and the refresh publishes
nothing from the initial state. -/
theorem fetch_error_discards_witness :
    fetchPages (fun _ => Except.error "network down") 1 "" [⟨"U1", "alice"⟩] =
      Except.error "network down" ∧
    (refreshAttempt id (fun _ => Except.error "network down") 1 initCoord).store =
      initCoord.store :=
  ⟨(fetch_error_discards_and_never_publishes
      (ReachesError.here 0 "" "network down" rfl)).1 [⟨"U1", "alice"⟩],
   ((fetch_error_discards_and_never_publishes
      (ReachesError.here 0 "" "network down" rfl)).2 id initCoord rfl).1⟩

/-- Invariant preservation for the snapshot-builder fold: starting from
a state where (A) every alias binding points at a stored entry whose
normalized alias is that binding's key, and (B) every stored entry's
normalized alias is bound in the alias map, and where the remaining
entries' IDs are fresh and mutually distinct, both invariants hold
after folding the remaining entries in. -/
theorem build_loop_inv (norm : String → String) :
    ∀ (entries : List DirectoryEntry) (s : Snapshot),
      (∀ a i, lookupA a s.byAlias = some i →
        ∃ e, lookupA i s.byID = some e ∧ norm e.aliasName = a) →
      (∀ i e, lookupA i s.byID = some e →
        ∃ i', lookupA (norm e.aliasName) s.byAlias = some i') →
      (∀ f, f ∈ entries → lookupA f.id s.byID = none) →
      (entries.map DirectoryEntry.id).Nodup →
      ((∀ a i, lookupA a (entries.foldl (buildStep norm) s).byAlias = some i →
          ∃ e, lookupA i (entries.foldl (buildStep norm) s).byID = some e ∧
            norm e.aliasName = a) ∧
       (∀ i e, lookupA i (entries.foldl (buildStep norm) s).byID = some e →
          ∃ i', lookupA (norm e.aliasName) (entries.foldl (buildStep norm) s).byAlias = some i')) := by
  intro entries
  induction entries with
  | nil => intro s hA hB _ _; exact ⟨hA, hB⟩
  | cons f rest ih =>
    intro s hA hB hfresh hnodup
    have hfid : lookupA f.id s.byID = none := hfresh f (List.mem_cons_self ..)
    rw [List.map_cons, List.nodup_cons] at hnodup
    obtain ⟨hf_notin, hrest_nodup⟩ := hnodup
    have hA' : ∀ a i, lookupA a (buildStep norm s f).byAlias = some i →
        ∃ e, lookupA i (buildStep norm s f).byID = some e ∧ norm e.aliasName = a := by
      intro a i hai
      simp only [buildStep, lookupA_insertA] at hai ⊢
      by_cases ha : norm f.aliasName = a
      · rw [if_pos ha] at hai
        obtain rfl : f.id = i := by injection hai
        exact ⟨f, by rw [if_pos rfl], ha⟩
      · rw [if_neg ha] at hai
        obtain ⟨e, he, hea⟩ := hA a i hai
        refine ⟨e, ?_, hea⟩
        have hif : f.id ≠ i := by
          intro hcontra
          rw [hcontra] at hfid
          rw [hfid] at he
          exact Option.noConfusion he
        rw [if_neg hif]
        exact he
    have hB' : ∀ i e, lookupA i (buildStep norm s f).byID = some e →
        ∃ i', lookupA (norm e.aliasName) (buildStep norm s f).byAlias = some i' := by
      intro i e hie
      simp only [buildStep, lookupA_insertA] at hie ⊢
      by_cases hif : f.id = i
      · rw [if_pos hif] at hie
        obtain rfl : f = e := by injection hie
        exact ⟨f.id, by rw [if_pos rfl]⟩
      · rw [if_neg hif] at hie
        obtain ⟨i', hi'⟩ := hB i e hie
        by_cases han : norm f.aliasName = norm e.aliasName
        · exact ⟨f.id, by rw [if_pos han]⟩
        · exact ⟨i', by rw [if_neg han]; exact hi'⟩
    have hfresh' : ∀ g, g ∈ rest → lookupA g.id (buildStep norm s f).byID = none := by
      intro g hg
      simp only [buildStep, lookupA_insertA]
      have hne : f.id ≠ g.id := by
        intro hcontra
        exact hf_notin (hcontra ▸ List.mem_map_of_mem DirectoryEntry.id hg)
      rw [if_neg hne]
      exact hfresh g (List.mem_cons_of_mem _ hg)
    simpa only [List.foldl_cons] using ih (buildStep norm s f) hA' hB' hfresh' hrest_nodup

/-- Claim C7 counterexample: the claimed round-trip fails on a fetch
with a duplicated ID.  Building from the entries
`[⟨"1","a"⟩, ⟨"2","a"⟩, ⟨"2","b"⟩]` (with the identity normalization),
the entry `⟨"1","a"⟩` sits in `byID`, resolving its alias `"a"` through
`byAlias` yields the ID `"2"`, but the entry stored under `"2"` is
`⟨"2","b"⟩`, whose alias `"b"` does not match the alias `"a"` used for
the resolution. -/
theorem alias_resolution_roundtrip_fails :
    lookupA "1" (build id [⟨"1", "a"⟩, ⟨"2", "a"⟩, ⟨"2", "b"⟩]).byID = some ⟨"1", "a"⟩ ∧
    lookupA "a" (build id [⟨"1", "a"⟩, ⟨"2", "a"⟩, ⟨"2", "b"⟩]).byAlias = some "2" ∧
    lookupA "2" (build id [⟨"1", "a"⟩, ⟨"2", "a"⟩, ⟨"2", "b"⟩]).byID = some ⟨"2", "b"⟩ ∧
    ("b" : String) ≠ "a" := by
  refine ⟨rfl, rfl, rfl, by decide⟩

/-- Unconditional invariant of the snapshot-builder fold: with no
assumption on the entries at all, every alias binding's target ID is a
key of `byID`, because each processed entry inserts its own ID into
`byID` and IDs are only ever overwritten in place, never removed. -/
theorem build_alias_targets_exist (norm : String → String) :
    ∀ (entries : List DirectoryEntry) (s : Snapshot),
      (∀ a i, lookupA a s.byAlias = some i → ∃ e, lookupA i s.byID = some e) →
      ∀ a i, lookupA a (entries.foldl (buildStep norm) s).byAlias = some i →
        ∃ e, lookupA i (entries.foldl (buildStep norm) s).byID = some e := by
  intro entries
  induction entries with
  | nil => intro s h; exact h
  | cons f rest ih =>
    intro s h
    have h' : ∀ a i, lookupA a (buildStep norm s f).byAlias = some i →
        ∃ e, lookupA i (buildStep norm s f).byID = some e := by
      intro a i hai
      simp only [buildStep, lookupA_insertA] at hai ⊢
      by_cases ha : norm f.aliasName = a
      · rw [if_pos ha] at hai
        obtain rfl : f.id = i := by injection hai
        exact ⟨f, by rw [if_pos rfl]⟩
      · rw [if_neg ha] at hai
        obtain ⟨e, he⟩ := h a i hai
        by_cases hif : f.id = i
        · exact ⟨f, by rw [if_pos hif]⟩
        · exact ⟨e, by rw [if_neg hif]; exact he⟩
    simpa only [List.foldl_cons] using ih (buildStep norm s f) h'

/-- Claim C7 (amended): for every snapshot built from entries with
pairwise-distinct IDs (the shape the spec says the upstream guarantees
within one fetch), resolving the alias of any `byID` entry through
`byAlias` yields an ID that is a key of `byID` whose entry's normalized
alias matches the one used for the resolution; and unconditionally —
for a snapshot built from any entries whatsoever — every alias key of
`byAlias` maps to an ID present in `byID`.  (Without the distinct-ID
hypothesis the round-trip part fails; see the counterexample.) -/
theorem alias_resolution_roundtrip (norm : String → String) (entries : List DirectoryEntry) :
    ((entries.map DirectoryEntry.id).Nodup →
      ∀ i e, lookupA i (build norm entries).byID = some e →
        ∃ i' e', lookupA (norm e.aliasName) (build norm entries).byAlias = some i' ∧
          lookupA i' (build norm entries).byID = some e' ∧
          norm e'.aliasName = norm e.aliasName) ∧
    (∀ a i, lookupA a (build norm entries).byAlias = some i →
        ∃ e, lookupA i (build norm entries).byID = some e) := by
  constructor
  · intro h i e hie
    have base := build_loop_inv norm entries ⟨[], []⟩
      (by intro a i h'; simp [lookupA] at h')
      (by intro i e h'; simp [lookupA] at h')
      (by intro f _; simp [lookupA]) h
    obtain ⟨hA, hB⟩ := base
    simp only [build] at hie ⊢
    obtain ⟨i', hi'⟩ := hB i e hie
    obtain ⟨e', he', hee⟩ := hA _ _ hi'
    exact ⟨i', e', hi', he', hee⟩
  · intro a i hai
    simp only [build] at hai ⊢
    exact build_alias_targets_exist norm entries ⟨[], []⟩
      (by intro a i h'; simp [lookupA] at h') a i hai

/-- Witness for the amended C7: the round-trip part at a concrete
duplicate-free fetch, and the unconditional membership part exercised
on the duplicate-ID input of the counterexample itself. -/
theorem alias_resolution_roundtrip_witness :
    (∃ i' e', lookupA (id (DirectoryEntry.aliasName ⟨"1", "a"⟩))
        (build id [⟨"1", "a"⟩, ⟨"2", "b"⟩]).byAlias = some i' ∧
      lookupA i' (build id [⟨"1", "a"⟩, ⟨"2", "b"⟩]).byID = some e' ∧
      id e'.aliasName = id (DirectoryEntry.aliasName ⟨"1", "a"⟩)) ∧
    (∃ e, lookupA "2" (build id [⟨"1", "a"⟩, ⟨"2", "a"⟩, ⟨"2", "b"⟩]).byID = some e) :=
  ⟨(alias_resolution_roundtrip id [⟨"1", "a"⟩, ⟨"2", "b"⟩]).1 (by decide)
      "1" ⟨"1", "a"⟩ (by decide),
   (alias_resolution_roundtrip id [⟨"1", "a"⟩, ⟨"2", "a"⟩, ⟨"2", "b"⟩]).2
      "a" "2" (by decide)⟩

/-- Claim C3: every tool handler checks the provider's `IsReady()`
before using cached data or issuing any upstream call.  When the
provider is not ready, every read handler returns a nil result with the
readiness error and issues no upstream call; the write handlers do the
same once past their write-enablement gate, and even when that gate
rejects first they still issue no upstream call. -/
theorem handlers_check_ready_first
    (p : Provider) (hp : p.ready = false)
    (client : Option ListsClientM) (api : SlackAPIM)
    (fICSV : List Item → String) (fSI : Item → List Column → String)
    (csvM : List CanvasItem → Except String String) (fT : Int → String)
    (parseObj : String → Option (List (String × Jval))) (parseErr : String)
    (le ce : String)
    (listID cursor recordID columnID value fieldsStr : String) (limit : Int)
    (channelID canvasID containsText sectionTypes title content operation sectionID : String) :
    ListsGetItemsHandler p client fICSV listID cursor limit = ((none, p.readyErr), []) ∧
    ListsGetItemHandler p client fSI listID recordID = ((none, p.readyErr), []) ∧
    CanvasesListHandler p api csvM fT channelID limit = ((none, p.readyErr), []) ∧
    CanvasesReadHandler p api canvasID = ((none, p.readyErr), []) ∧
    CanvasesSectionsLookupHandler p api canvasID containsText sectionTypes =
      ((none, p.readyErr), []) ∧
    (isListWriteEnabled le = true →
      ListsAddItemHandler p client le parseObj parseErr listID fieldsStr =
        ((none, p.readyErr), []) ∧
      ListsUpdateItemHandler p client le listID recordID columnID value =
        ((none, p.readyErr), []) ∧
      ListsDeleteItemHandler p client le listID recordID = ((none, p.readyErr), [])) ∧
    (isCanvasWriteEnabled ce = true →
      CanvasesCreateHandler p api ce title content = ((none, p.readyErr), []) ∧
      CanvasesEditHandler p api ce canvasID operation sectionID content =
        ((none, p.readyErr), [])) ∧
    (ListsAddItemHandler p client le parseObj parseErr listID fieldsStr).2 = [] ∧
    (ListsUpdateItemHandler p client le listID recordID columnID value).2 = [] ∧
    (ListsDeleteItemHandler p client le listID recordID).2 = [] ∧
    (CanvasesCreateHandler p api ce title content).2 = [] ∧
    (CanvasesEditHandler p api ce canvasID operation sectionID content).2 = [] := by
  refine ⟨?_, ?_, ?_, ?_, ?_, ?_, ?_, ?_, ?_, ?_, ?_, ?_⟩
  · simp [ListsGetItemsHandler, hp]
  · simp [ListsGetItemHandler, hp]
  · simp [CanvasesListHandler, hp]
  · simp [CanvasesReadHandler, hp]
  · simp [CanvasesSectionsLookupHandler, hp]
  · intro hw
    refine ⟨?_, ?_, ?_⟩ <;>
      simp [ListsAddItemHandler, ListsUpdateItemHandler, ListsDeleteItemHandler, hp, hw]
  · intro hw
    refine ⟨?_, ?_⟩ <;> simp [CanvasesCreateHandler, CanvasesEditHandler, hp, hw]
  · by_cases hw : isListWriteEnabled le <;> simp [ListsAddItemHandler, hp, hw]
  · by_cases hw : isListWriteEnabled le <;> simp [ListsUpdateItemHandler, hp, hw]
  · by_cases hw : isListWriteEnabled le <;> simp [ListsDeleteItemHandler, hp, hw]
  · by_cases hw : isCanvasWriteEnabled ce <;> simp [CanvasesCreateHandler, hp, hw]
  · by_cases hw : isCanvasWriteEnabled ce <;> simp [CanvasesEditHandler, hp, hw]

/-- Witness for C3: a not-ready provider makes `ListsGetItemsHandler`
surface the readiness error without an upstream call. -/
theorem handlers_check_ready_first_witness :
    ListsGetItemsHandler ⟨false, some "not ready", []⟩ none (fun _ => "") "F1" "" 100 =
      ((none, some "not ready"), []) :=
  (handlers_check_ready_first ⟨false, some "not ready", []⟩ rfl none trivialSlackAPI
    (fun _ => "") (fun _ _ => "") (fun _ => Except.ok "") (fun _ => "")
    (fun _ => none) "parse error" "true" "true"
    "F1" "" "R1" "C1" "" "" 100 "" "F2" "" "" "T" "" "replace" "").1

/-- Claim C8: each list write handler and each canvas write handler
returns the disabled-tools error without calling the upstream client
unless the corresponding environment variable lower-cases to exactly
`"true"`, `"1"` or `"yes"`. -/
theorem write_tools_env_gated
    (p : Provider) (client : Option ListsClientM) (api : SlackAPIM)
    (parseObj : String → Option (List (String × Jval))) (parseErr : String)
    (le ce : String)
    (hle : toLowerStr le ≠ "true" ∧ toLowerStr le ≠ "1" ∧ toLowerStr le ≠ "yes")
    (hce : toLowerStr ce ≠ "true" ∧ toLowerStr ce ≠ "1" ∧ toLowerStr ce ≠ "yes")
    (listID fieldsStr recordID columnID value canvasID operation sectionID title content : String) :
    ListsAddItemHandler p client le parseObj parseErr listID fieldsStr =
      ((none, some listWriteDisabledMsg), []) ∧
    ListsUpdateItemHandler p client le listID recordID columnID value =
      ((none, some listWriteDisabledMsg), []) ∧
    ListsDeleteItemHandler p client le listID recordID =
      ((none, some listWriteDisabledMsg), []) ∧
    CanvasesCreateHandler p api ce title content =
      ((none, some canvasWriteDisabledMsg), []) ∧
    CanvasesEditHandler p api ce canvasID operation sectionID content =
      ((none, some canvasWriteDisabledMsg), []) := by
  have h1 : isListWriteEnabled le = false := by
    simp [isListWriteEnabled, hle.1, hle.2.1, hle.2.2]
  have h2 : isCanvasWriteEnabled ce = false := by
    simp [isCanvasWriteEnabled, hce.1, hce.2.1, hce.2.2]
  refine ⟨?_, ?_, ?_, ?_, ?_⟩ <;>
    simp [ListsAddItemHandler, ListsUpdateItemHandler, ListsDeleteItemHandler,
      CanvasesCreateHandler, CanvasesEditHandler, h1, h2]

/-- Witness for C8 at an unset list variable and a `"no"` canvas
variable. -/
theorem write_tools_env_gated_witness :
    ListsAddItemHandler ⟨true, none, []⟩ none "" (fun _ => none) "parse error" "F1" "x" =
      ((none, some listWriteDisabledMsg), []) :=
  (write_tools_env_gated ⟨true, none, []⟩ none trivialSlackAPI (fun _ => none) "parse error"
    "" "no" (by refine ⟨?_, ?_, ?_⟩ <;> decide) (by refine ⟨?_, ?_, ?_⟩ <;> decide)
    "F1" "x" "R1" "C1" "" "F2" "replace" "" "T" "body").1

/-- Claim C10: for every request with operation `"rename"`,
`CanvasesEditHandler` issues no upstream call (in particular it never
calls `EditCanvasContext`) and never returns a successful result; on
the path that reaches the rename branch (write tools enabled, provider
ready, non-empty `canvas_id`) the error is "content (new title) is
required" when `content` is empty and the rename-unsupported message
otherwise. -/
theorem canvases_edit_rejects_rename
    (p : Provider) (api : SlackAPIM) (ce canvasID sectionID content : String) :
    (CanvasesEditHandler p api ce canvasID "rename" sectionID content).2 = [] ∧
    (CanvasesEditHandler p api ce canvasID "rename" sectionID content).1.1 = none ∧
    (isCanvasWriteEnabled ce = true → p.ready = true → canvasID ≠ "" →
      (CanvasesEditHandler p api ce canvasID "rename" sectionID content).1.2 =
        some (if content = "" then "content (new title) is required for rename operation"
              else renameUnsupportedMsg)) := by
  have hop : ¬ (("rename" : String) = "") := by decide
  by_cases hw : isCanvasWriteEnabled ce <;>
    by_cases hr : p.ready <;>
      by_cases hcid : canvasID = "" <;>
        by_cases hc : content = "" <;>
          simp [CanvasesEditHandler, hw, hr, hcid, hc, hop]

/-- Witness for C10 with the rename branch reached and a non-empty new
title. -/
theorem canvases_edit_rejects_rename_witness :
    (CanvasesEditHandler ⟨true, none, []⟩ trivialSlackAPI "true" "F1" "rename" "" "T2").2 = [] ∧
    (CanvasesEditHandler ⟨true, none, []⟩ trivialSlackAPI "true" "F1" "rename" "" "T2").1.2 =
      some (if ("T2" : String) = ""
            then "content (new title) is required for rename operation"
            else renameUnsupportedMsg) :=
  ⟨(canvases_edit_rejects_rename ⟨true, none, []⟩ trivialSlackAPI "true" "F1" "" "T2").1,
   (canvases_edit_rejects_rename ⟨true, none, []⟩ trivialSlackAPI "true" "F1" "" "T2").2.2
     (by decide) rfl (by decide)⟩

/-- Claim C9: extracting plain text from the rich-text JSON produced by
wrapping any string round-trips to that string:
`extractTextFromRichText (WrapTextAsRichText s) = s` (for the empty
string the wrapped run omits its `text` field and the extraction joins
an empty collection, which is again the empty string). -/
theorem wrap_extract_roundtrip (s : String) :
    extractTextFromRichText (WrapTextAsRichText s) = s := by
  by_cases hs : s = ""
  · subst hs; rfl
  · simp [WrapTextAsRichText, RichTextBlock.toJson, RichTextElement.toJson, RichTextRun.toJson,
      extractTextFromRichText, decodeBlocks, decodeBlock, decodeElement, decodeRun,
      decodeArrField, decodeStrField, decodeString, getField, mapMO, joinRunTexts,
      String.join, hs]

end SlackMCP
